import Mathlib

/-!
Verification of the UnitTest node helper functions
(packages/nodes-base/nodes/UnitTest/GenericFunctions.ts).

The TypeScript source is shallowly embedded: JS objects that may lack a key
become `Option` fields, a value that may be `undefined` at runtime becomes
`Option`, thrown exceptions become `Except`, and the JS object-spread and
index-assignment semantics on plain objects are modelled by an association
list with assign-in-place-or-append updates.  The host facilities used by
the code (`JSON.parse`, expression evaluation against a parent node) are
passed in as explicit parameters describing their observable outcome.
-/

set_option autoImplicit false

namespace UnitTestNode

/-- The string value of the host enumeration member `NodeConnectionType.Main`
(the template literal in the source interpolates it to the string "main"). -/
def NodeConnectionTypeMain : String := "main"

/-- A connection descriptor as built by `nodeInputs` / `nodeOutputs`:
`type` is always present, `displayName` and `category` may be absent. -/
structure BranchDescriptor where
  type : String
  displayName : Option String
  category : Option String
  deriving Repr, DecidableEq

/-- The hidden boolean toggles inside the `additionalFields` parameter.
Each field is `undefined` when the field is hidden, hence `Option Bool`. -/
structure AdditionalFields where
  isCleanUpBranchEnabled : Option Bool
  isFailBranchEnabled : Option Bool
  deriving Repr, DecidableEq

/-- The node parameter bag as read by `nodeInputs` and `nodeOutputs`:
`operation` may be unset, and `additionalFields` itself may be absent. -/
structure NodeParameters where
  operation : Option String
  additionalFields : Option AdditionalFields
  deriving Repr, DecidableEq

/-- `nodeInputs` from the source: two named Main inputs ("pass", "fail") when
the operation is `booleanInputComparison`, otherwise one unnamed Main input. -/
def nodeInputs (parameters : NodeParameters) : List BranchDescriptor :=
  if parameters.operation == some "booleanInputComparison" then
    let inputBranches : List String := ["pass", "fail"]
    inputBranches.map (fun branch =>
      { type := NodeConnectionTypeMain, displayName := some branch, category := none })
  else
    [{ type := NodeConnectionTypeMain, displayName := none, category := none }]

/-- `nodeOutputs` from the source: reads the two hidden toggles through
optional chaining, substitutes the caller-supplied default for `undefined`,
then pushes the Clean Up branch and the On Fail branch when enabled. -/
def nodeOutputs (parameters : NodeParameters)
    (cleanUpBranchDefault : Bool) (failBranchDefault : Bool) :
    List BranchDescriptor :=
  let cleanUpBranchInput := parameters.additionalFields.bind
    (fun f => f.isCleanUpBranchEnabled)
  let failBranchInput := parameters.additionalFields.bind
    (fun f => f.isFailBranchEnabled)
  let isCleanUpBranchEnabled :=
    match cleanUpBranchInput with
    | some b => b
    | none => cleanUpBranchDefault
  let isFailBranchEnabled :=
    match failBranchInput with
    | some b => b
    | none => failBranchDefault
  let outputBranchArray : List BranchDescriptor := []
  let outputBranchArray :=
    if isCleanUpBranchEnabled then
      outputBranchArray ++
        [{ type := NodeConnectionTypeMain, displayName := some "Clean Up", category := none }]
    else outputBranchArray
  let outputBranchArray :=
    if isFailBranchEnabled then
      outputBranchArray ++
        [{ type := NodeConnectionTypeMain, displayName := some "On Fail",
           category := some "error" }]
    else outputBranchArray
  outputBranchArray

/-- A JSON-like value as it occurs in the item payloads handled by the node.
`meta` embeds a `UnitTestMetaData` envelope (fields: pass, testId,
testRunName, triggerInputData) stored under the reserved key. -/
inductive JVal : Type where
  | str : String → JVal
  | num : Int → JVal
  | bool : Bool → JVal
  | obj : List (String × JVal) → JVal
  | meta : Option Bool → Option String → Option String →
      Option (List (String × JVal)) → JVal
  deriving Repr

/-- A JS plain object, as an association list of key/value pairs. -/
def TriggerJsonData : Type := List (String × JVal)

instance : Repr TriggerJsonData := inferInstanceAs (Repr (List (String × JVal)))

/-- The `UnitTestMetaData` interface: every field optional. -/
structure UnitTestMetaData where
  pass : Option Bool
  testId : Option String
  testRunName : Option String
  triggerInputData : Option TriggerJsonData
  deriving Repr

/-- Embedding of a metadata envelope as a JSON value (the object literal the
source stores under the `_unitTest` key). -/
def UnitTestMetaData.toJVal (m : UnitTestMetaData) : JVal :=
  JVal.meta m.pass m.testId m.testRunName m.triggerInputData

/-- JS assignment `o[k] = v` on a plain object (also the effect of adding the
key `k` after spreading `o`): overwrite the value in place when the key is
already present, otherwise append the pair at the end. -/
def objSet (o : List (String × JVal)) (k : String) (v : JVal) :
    List (String × JVal) :=
  if o.any (fun p => p.1 == k) then
    o.map (fun p => if p.1 == k then (k, v) else p)
  else
    o ++ [(k, v)]

/-- JS truthiness fallback `name || "unnamed"` on a string that may be
`undefined`: the fallback fires on `undefined` and on the empty string. -/
def jsNameOrUnnamed (name : Option String) : String :=
  match name with
  | none => "unnamed"
  | some s => if s == "" then "unnamed" else s

/-- `RawKeyValueInputItems`: `testRunName` may be absent; `testRun` is the
collection object the host supplies, which at runtime is either the empty
object (modelled `none`, matching the `Object.keys(item.testRun).length === 0`
check in the source) or an object with a `keyValueData` row list. -/
structure RawKeyValueInputItems where
  testRunName : Option String
  testRun : Option (List (String × String))
  deriving Repr

/-- `RawJsonInput`: optional run name and the raw JSON text. -/
structure RawJsonInput where
  testRunName : Option String
  jsonTestRun : String
  deriving Repr, DecidableEq

/-- One output item: `{ json: ... }`. -/
structure TriggerReturnData where
  json : TriggerJsonData
  deriving Repr

/-- `getReturnNodeJsonFromKeyValue` from the source.  The argument is
`Option` to model a caller passing `undefined`.  For each entry: if the
`testRun` object is empty, emit `{json: {}}`; otherwise fold the key/value
rows into a flat object, build the metadata envelope, and emit the object
spread together with the `_unitTest` key. -/
def getReturnNodeJsonFromKeyValue
    (rawKeyValueData : Option (List RawKeyValueInputItems)) (testId : String) :
    List TriggerReturnData :=
  match rawKeyValueData with
  | none => []
  | some l =>
    l.map (fun item =>
      match item.testRun with
      | none => { json := [] }
      | some rows =>
        let jsonObject : TriggerJsonData :=
          rows.foldl (fun o kv => objSet o kv.1 (JVal.str kv.2)) []
        let unitTestMetadata : UnitTestMetaData :=
          { pass := none
            testId := some testId
            testRunName := some (jsNameOrUnnamed item.testRunName)
            triggerInputData := some jsonObject }
        { json := objSet jsonObject "_unitTest" unitTestMetadata.toJVal })

/-- Semantics of the JS `Array.prototype.map` with a callback that may
throw: entries are processed left to right and the first thrown exception
aborts the whole map, yielding no partial result. -/
def jsMapThrow {α β : Type} (f : α → Except String β) :
    List α → Except String (List β)
  | [] => Except.ok []
  | x :: xs => do
    let y ← f x
    let ys ← jsMapThrow f xs
    pure (y :: ys)

/-- The per-entry callback of `getReturnNodeJsonFromJson`: parse the JSON
text (rethrowing a parse failure unchanged, as the `try/catch` in the source
does), then build the item with the metadata envelope under `_unitTest`. -/
def jsonItemToReturnData (parse : String → Except String TriggerJsonData)
    (testId : String) (item : RawJsonInput) : Except String TriggerReturnData := do
  let parsedJson ← parse item.jsonTestRun
  let unitTestMetadata : UnitTestMetaData :=
    { pass := none
      testId := some testId
      testRunName := some (jsNameOrUnnamed item.testRunName)
      triggerInputData := some parsedJson }
  pure { json := objSet parsedJson "_unitTest" unitTestMetadata.toJVal }

/-- `getReturnNodeJsonFromJson` from the source.  `parse` is the host
`JSON.parse`, returning either a parse error (the thrown exception, carried
verbatim) or the parsed object. -/
def getReturnNodeJsonFromJson
    (parse : String → Except String TriggerJsonData)
    (rawJsonInputData : Option (List RawJsonInput)) (testId : String) :
    Except String (List TriggerReturnData) :=
  match rawJsonInputData with
  | none => Except.ok []
  | some l => jsMapThrow (jsonItemToReturnData parse testId) l

/-- An ancestor node as seen by `getTriggerTestMetaData`: its name, its node
type, and the observable outcome of evaluating the host expression
fetching its latest item metadata envelope: `Except.error` when the
evaluation throws (the trigger has not run), otherwise the value produced,
which may itself be `undefined` (`none`) when the item has no envelope. -/
structure ParentNode where
  name : String
  type : String
  evalResult : Except Unit (Option UnitTestMetaData)

/-- The host operational error raised on a failed correlation: a message and
the item index passed for diagnostics. -/
structure NodeOperationErrorData where
  message : String
  itemIndex : Nat
  deriving Repr, DecidableEq

/-- The loop-body condition of the correlator: the ancestor evaluation
succeeded and the resulting envelope has `testId` equal to the target
(`triggerMetaData?.testId === testId` in the source, which is false when the
result is `undefined` or its `testId` field is absent). -/
def matchesTestId (testId : String) (node : ParentNode) : Bool :=
  match node.evalResult with
  | Except.error _ => false
  | Except.ok v => (v.bind (fun m => m.testId)) == some testId

/-- One iteration of the correlator loop over the pair of mutable variables
`(triggerName, triggerMetaData)`: a throwing evaluation leaves both
unchanged (the catch block swallows it); a successful one always overwrites
`triggerMetaData` with the evaluated value and sets `triggerName` only when
the envelope testId matches. -/
def scanStep (testId : String)
    (st : Option String × Option UnitTestMetaData) (node : ParentNode) :
    Option String × Option UnitTestMetaData :=
  match node.evalResult with
  | Except.error _ => st
  | Except.ok v =>
    (if matchesTestId testId node then some node.name else st.1, v)

/-- `getTriggerTestMetaData` from the source: filter the parent nodes to the
unit-test trigger type, scan them with `scanStep` starting from both
variables undefined, then fail with the operational error (carrying the item
index) when `triggerName` is still undefined or `triggerMetaData` is falsy,
and otherwise return `triggerMetaData`. -/
def getTriggerTestMetaData (parents : List ParentNode) (testId : String)
    (itemIndex : Nat) : Except NodeOperationErrorData UnitTestMetaData :=
  let testTriggerNodes := parents.filter
    (fun node => node.type == "n8n-nodes-base.unitTestTrigger")
  let st := testTriggerNodes.foldl (scanStep testId) (none, none)
  match st with
  | (some _, some m) => Except.ok m
  | _ =>
    Except.error
      { message := "No Test Trigger Node with matching ID found"
        itemIndex := itemIndex }

/-! ### Specification-side definitions used for comparison -/

/-- Written from the words of claim C4: a toggle resolves to its explicit
value when set, and to the supplied default when unset. -/
def specResolveToggle (explicitValue : Option Bool) (dflt : Bool) : Bool :=
  match explicitValue with
  | some b => b
  | none => dflt

/-- The first parse failure, in list order, among the entries of a raw JSON
input list: the exception the materializer is expected to propagate. -/
def firstParseFailure (parse : String → Except String TriggerJsonData) :
    List RawJsonInput → Option String
  | [] => none
  | item :: rest =>
    match parse item.jsonTestRun with
    | Except.error e => some e
    | Except.ok _ => firstParseFailure parse rest

/-! ### Theorems -/

/-- Claim C5: for every parameter bag, `nodeInputs` returns exactly the two
Main-type branches named "pass" then "fail" when the operation is
`booleanInputComparison`, and exactly one unnamed Main-type branch for every
other operation value. -/
theorem nodeInputs_pass_fail_or_single (parameters : NodeParameters) :
    nodeInputs parameters =
      if parameters.operation = some "booleanInputComparison" then
        [{ type := "main", displayName := some "pass", category := none },
         { type := "main", displayName := some "fail", category := none }]
      else
        [{ type := "main", displayName := none, category := none }] := by
  by_cases h : parameters.operation = some "booleanInputComparison" <;>
    simp [nodeInputs, NodeConnectionTypeMain, h]

/-- Claim C4: for every parameter bag and every pair of supplied defaults,
`nodeOutputs` returns the Clean Up branch (first, when its toggle resolves
true) followed by the On Fail branch with category error (when its toggle
resolves true), where each toggle resolves to its explicit value when set
and to the supplied default when unset, and nothing else. -/
theorem nodeOutputs_branch_table (parameters : NodeParameters)
    (cleanUpBranchDefault failBranchDefault : Bool) :
    nodeOutputs parameters cleanUpBranchDefault failBranchDefault =
      (if specResolveToggle
          (parameters.additionalFields.bind (fun f => f.isCleanUpBranchEnabled))
          cleanUpBranchDefault then
        [{ type := "main", displayName := some "Clean Up", category := none }]
       else []) ++
      (if specResolveToggle
          (parameters.additionalFields.bind (fun f => f.isFailBranchEnabled))
          failBranchDefault then
        [{ type := "main", displayName := some "On Fail", category := some "error" }]
       else []) := by
  obtain ⟨op, af⟩ := parameters
  rcases af with _ | ⟨cu, fb⟩
  · cases cleanUpBranchDefault <;> cases failBranchDefault <;> rfl
  · rcases cu with _ | b <;> rcases fb with _ | c <;>
      cases cleanUpBranchDefault <;> cases failBranchDefault <;>
      first
        | rfl
        | (cases b <;> first | rfl | (cases c <;> rfl))
        | (cases c <;> rfl)

/-- Claim C7: on the single row with run name "A" and key/value data
x maps to "1", with test id "T1", the key/value materializer returns exactly
one item whose json holds x and the `_unitTest` envelope with that test id,
run name and trigger input data. -/
theorem keyValue_concrete_row :
    getReturnNodeJsonFromKeyValue
        (some [{ testRunName := some "A", testRun := some [("x", "1")] }]) "T1" =
      [{ json := [("x", JVal.str "1"),
          ("_unitTest", JVal.meta none (some "T1") (some "A")
            (some [("x", JVal.str "1")]))] }] := rfl

/-- Claim C9: both materializers return the empty sequence, not a failure,
when the input list is undefined, for every test id (and, for the JSON
materializer, every parse facility). -/
theorem materializers_undefined_input (testId : String)
    (parse : String → Except String TriggerJsonData) :
    getReturnNodeJsonFromKeyValue none testId = [] ∧
      getReturnNodeJsonFromJson parse none testId = Except.ok [] :=
  ⟨rfl, rfl⟩

/-- Claim C10: in both materializers an entry whose run name is present but
empty is stamped exactly as if the name had been omitted, because the
truthiness fallback to "unnamed" fires on the empty string as well. -/
theorem empty_runName_falls_back_to_unnamed (testId : String)
    (kvRows : List (String × String)) (jsonText : String)
    (parse : String → Except String TriggerJsonData) :
    jsNameOrUnnamed (some "") = "unnamed" ∧
      getReturnNodeJsonFromKeyValue
          (some [{ testRunName := some "", testRun := some kvRows }]) testId =
        getReturnNodeJsonFromKeyValue
          (some [{ testRunName := none, testRun := some kvRows }]) testId ∧
      getReturnNodeJsonFromJson parse
          (some [{ testRunName := some "", jsonTestRun := jsonText }]) testId =
        getReturnNodeJsonFromJson parse
          (some [{ testRunName := none, jsonTestRun := jsonText }]) testId :=
  ⟨rfl, rfl, rfl⟩

/-- Claim C2, counterexample: an entry whose `keyValueData` row list is
present but empty does not produce the bare item with empty json; the
materializer attaches a metadata envelope with empty trigger input data,
because the emptiness check in the source inspects the `testRun` object, not
the row list. -/
theorem keyValue_emptyRows_not_bare :
    getReturnNodeJsonFromKeyValue
        (some [{ testRunName := none, testRun := some [] }]) "T" ≠
      [{ json := [] }] := by
  intro h
  rw [show getReturnNodeJsonFromKeyValue
        (some [{ testRunName := none, testRun := some [] }]) "T" =
      [{ json := [("_unitTest", JVal.meta none (some "T") (some "unnamed")
        (some []))] }] from rfl] at h
  injection h with h1 _
  exact absurd (congrArg TriggerReturnData.json h1) (List.cons_ne_nil _ _)

/-- Claim C2, amended: an entry whose `testRun` object is empty (the host
representation of an unconfigured row set, with no `keyValueData` key)
yields exactly the item with empty json and no metadata envelope, leaving
the remaining entries unaffected. -/
theorem keyValue_emptyTestRun_bare_item (testId : String) (name : Option String)
    (rest : List RawKeyValueInputItems) :
    getReturnNodeJsonFromKeyValue
        (some ({ testRunName := name, testRun := none } :: rest)) testId =
      { json := [] } :: getReturnNodeJsonFromKeyValue (some rest) testId := rfl

/-- Unfolding equation of `jsMapThrow` on a nonempty list, with the monadic
operations spelled out. -/
theorem jsMapThrow_cons {α β : Type} (f : α → Except String β) (x : α)
    (xs : List α) :
    jsMapThrow f (x :: xs) =
      (f x).bind (fun y =>
        (jsMapThrow f xs).bind (fun ys => Except.ok (y :: ys))) := rfl

/-- Binding an ok value in `Except` applies the continuation. -/
theorem exceptBind_ok {α β : Type} (a : α)
    (f : α → Except String β) :
    (Except.ok a : Except String α).bind f = f a := rfl

/-- Binding an error in `Except` keeps the error. -/
theorem exceptBind_error {α β : Type} (e : String)
    (f : α → Except String β) :
    (Except.error e : Except String α).bind f = Except.error e := rfl

/-- Claim C6: whenever some entry of the input list has unparsable JSON
text, the JSON materializer fails with exactly the parse error of the first
such entry, propagated unmodified, and produces no partial result. -/
theorem json_parse_failure_propagates
    (parse : String → Except String TriggerJsonData) (l : List RawJsonInput)
    (testId : String) (e : String)
    (h : firstParseFailure parse l = some e) :
    getReturnNodeJsonFromJson parse (some l) testId = Except.error e := by
  induction l with
  | nil => simp [firstParseFailure] at h
  | cons x xs ih =>
    simp only [getReturnNodeJsonFromJson] at ih ⊢
    rw [jsMapThrow_cons]
    cases hp : parse x.jsonTestRun with
    | error e2 =>
      have he : e2 = e := by
        simpa [firstParseFailure, hp] using h
      have hfx : jsonItemToReturnData parse testId x = Except.error e2 := by
        simp only [jsonItemToReturnData, hp]
        rfl
      rw [hfx, exceptBind_error, he]
    | ok v =>
      have h2 : firstParseFailure parse xs = some e := by
        simpa [firstParseFailure, hp] using h
      have ih2 := ih h2
      have hfx : jsonItemToReturnData parse testId x =
          Except.ok { json := (objSet v "_unitTest"
            (JVal.meta none (some testId) (some (jsNameOrUnnamed x.testRunName))
              (some v))) } := by
        simp only [jsonItemToReturnData, hp]
        rfl
      rw [hfx]
      simp only [exceptBind_ok]
      rw [ih2, exceptBind_error]

/-- Parse facility used to exercise `json_parse_failure_propagates` on a
concrete malformed input. -/
def failingParse : String → Except String TriggerJsonData :=
  fun _ => Except.error "Unexpected token"

/-- Claim C6, witness: concrete run of the materializer on a single entry
whose text fails to parse. -/
theorem json_parse_failure_propagates_witness :
    getReturnNodeJsonFromJson failingParse
        (some [{ testRunName := none, jsonTestRun := "not json" }]) "T" =
      Except.error "Unexpected token" :=
  json_parse_failure_propagates failingParse
    [{ testRunName := none, jsonTestRun := "not json" }] "T" "Unexpected token" rfl

/-- Claim C8: on the single entry whose text parses to the object with key a
mapped to the number 1, with the run name omitted and test id "T2", the JSON
materializer returns one item whose envelope has run name "unnamed" and the
parsed object as trigger input data. -/
theorem json_concrete_unnamed (parse : String → Except String TriggerJsonData)
    (h : parse "\x7b\"a\":1\x7d" = Except.ok [("a", JVal.num 1)]) :
    getReturnNodeJsonFromJson parse
        (some [{ testRunName := none, jsonTestRun := "\x7b\"a\":1\x7d" }]) "T2" =
      Except.ok [{ json := [("a", JVal.num 1),
        ("_unitTest", JVal.meta none (some "T2") (some "unnamed")
          (some [("a", JVal.num 1)]))] }] := by
  have hfx : jsonItemToReturnData parse "T2"
      { testRunName := none, jsonTestRun := "\x7b\"a\":1\x7d" } =
      Except.ok { json := [("a", JVal.num 1),
        ("_unitTest", JVal.meta none (some "T2") (some "unnamed")
          (some [("a", JVal.num 1)]))] } := by
    simp only [jsonItemToReturnData, h]
    rfl
  simp only [getReturnNodeJsonFromJson, jsMapThrow_cons, hfx]
  rfl

/-- A stand-in for the host JSON parser that recognises exactly the text of
claim C8. -/
def jsonParseStub : String → Except String TriggerJsonData := fun s =>
  if s == "\x7b\"a\":1\x7d" then Except.ok [("a", JVal.num 1)]
  else Except.error "Unexpected token"

/-- Claim C8, witness: concrete run with the stub parser. -/
theorem json_concrete_unnamed_witness :
    getReturnNodeJsonFromJson jsonParseStub
        (some [{ testRunName := none, jsonTestRun := "\x7b\"a\":1\x7d" }]) "T2" =
      Except.ok [{ json := [("a", JVal.num 1),
        ("_unitTest", JVal.meta none (some "T2") (some "unnamed")
          (some [("a", JVal.num 1)]))] }] :=
  json_concrete_unnamed jsonParseStub rfl

/-- Unfolding of the correlator into the filtered scan (the let bindings of
the definition, spelled out). -/
theorem getTriggerTestMetaData_eq (parents : List ParentNode) (testId : String)
    (itemIndex : Nat) :
    getTriggerTestMetaData parents testId itemIndex =
      match (parents.filter
          (fun node => node.type == "n8n-nodes-base.unitTestTrigger")).foldl
          (scanStep testId) (none, none) with
      | (some _, some m) => Except.ok m
      | _ =>
        Except.error
          { message := "No Test Trigger Node with matching ID found"
            itemIndex := itemIndex } := rfl

/-- When no scanned node matches the target test id, the `triggerName`
component of the scan state stays unset, from any starting metadata. -/
theorem scan_no_match_keeps_name_unset (testId : String) :
    ∀ (l : List ParentNode) (m : Option UnitTestMetaData),
      (∀ n ∈ l, matchesTestId testId n = false) →
      (l.foldl (scanStep testId) (none, m)).1 = none := by
  intro l
  induction l with
  | nil => intro m _; rfl
  | cons n l ih =>
    intro m hall
    have hn : matchesTestId testId n = false := hall n (List.mem_cons_self n l)
    have htail : ∀ x ∈ l, matchesTestId testId x = false :=
      fun x hx => hall x (List.mem_cons_of_mem n hx)
    show ((n :: l).foldl (scanStep testId) (none, m)).1 = none
    rw [List.foldl_cons]
    cases hev : n.evalResult with
    | error u =>
      have hstep : scanStep testId (none, m) n = (none, m) := by
        simp [scanStep, hev]
      rw [hstep]
      exact ih m htail
    | ok v =>
      have hstep : scanStep testId (none, m) n = (none, v) := by
        simp [scanStep, hev, hn]
      rw [hstep]
      exact ih v htail

/-- Claim C3: when no ancestor trigger node has an evaluated envelope whose
testId equals the target — including when every evaluation throws — the
correlator fails with the operational no-matching-trigger error carrying the
current item index, and per-ancestor evaluation failures never propagate. -/
theorem correlator_no_match_errors (parents : List ParentNode) (testId : String)
    (itemIndex : Nat)
    (h : ∀ n ∈ parents.filter
        (fun node => node.type == "n8n-nodes-base.unitTestTrigger"),
      matchesTestId testId n = false) :
    getTriggerTestMetaData parents testId itemIndex =
      Except.error
        { message := "No Test Trigger Node with matching ID found"
          itemIndex := itemIndex } := by
  rw [getTriggerTestMetaData_eq]
  have h1 := scan_no_match_keeps_name_unset testId
    (parents.filter (fun node => node.type == "n8n-nodes-base.unitTestTrigger"))
    none h
  rcases hfold : (parents.filter
      (fun node => node.type == "n8n-nodes-base.unitTestTrigger")).foldl
      (scanStep testId) (none, none) with ⟨a, b⟩
  rw [hfold] at h1
  simp only at h1
  subst h1
  rw [hfold]

/-- A parent node of a different type whose envelope would match: the filter
must ignore it. -/
def webhookParent : ParentNode :=
  { name := "Webhook"
    type := "n8n-nodes-base.webhook"
    evalResult := Except.ok (some
      { pass := none, testId := some "T", testRunName := none,
        triggerInputData := none }) }

/-- A trigger ancestor whose evaluation throws (it has not run). -/
def throwingTrigger : ParentNode :=
  { name := "TrigA"
    type := "n8n-nodes-base.unitTestTrigger"
    evalResult := Except.error () }

/-- A trigger ancestor whose envelope carries a different test id. -/
def otherIdTrigger : ParentNode :=
  { name := "TrigB"
    type := "n8n-nodes-base.unitTestTrigger"
    evalResult := Except.ok (some
      { pass := none, testId := some "U", testRunName := none,
        triggerInputData := none }) }

/-- Claim C3, witness: with one non-trigger parent, one throwing trigger and
one trigger with a different id, the correlator raises the operational error
with the given item index. -/
theorem correlator_no_match_errors_witness :
    getTriggerTestMetaData [webhookParent, throwingTrigger, otherIdTrigger]
        "T" 5 =
      Except.error
        { message := "No Test Trigger Node with matching ID found"
          itemIndex := 5 } :=
  correlator_no_match_errors [webhookParent, throwingTrigger, otherIdTrigger]
    "T" 5 (by decide)

/-- A trigger ancestor whose envelope matches the target id "T". -/
def matchingTrigger : ParentNode :=
  { name := "TrigMatch"
    type := "n8n-nodes-base.unitTestTrigger"
    evalResult := Except.ok (some
      { pass := none, testId := some "T", testRunName := some "run1",
        triggerInputData := none }) }

/-- A later trigger ancestor that evaluates successfully but carries the
unrelated test id "U". -/
def laterOtherTrigger : ParentNode :=
  { name := "TrigOther"
    type := "n8n-nodes-base.unitTestTrigger"
    evalResult := Except.ok (some
      { pass := none, testId := some "U", testRunName := some "run2",
        triggerInputData := none }) }

/-- Claim C1, divergence of the code from the claim: with an ancestor whose
envelope matches the target id "T" followed by an ancestor that evaluates
successfully with the different id "U", the correlator succeeds but returns
the envelope of the non-matching ancestor, whose testId differs from the
target — the loop records the matching node name in `triggerName` but keeps
overwriting `triggerMetaData` with every successful evaluation and returns
`triggerMetaData`. -/
theorem correlator_returns_nonmatching_envelope :
    matchesTestId "T" matchingTrigger = true ∧
      getTriggerTestMetaData [matchingTrigger, laterOtherTrigger] "T" 0 =
        Except.ok
          { pass := none, testId := some "U", testRunName := some "run2",
            triggerInputData := none } ∧
      (some "U" : Option String) ≠ some "T" :=
  ⟨rfl, rfl, by decide⟩

end UnitTestNode
